import Mathlib

/-!
Verification of the cybsi-sdk Python client library against its
natural-language specification.

The development shallowly embeds the request-building code of
`cybsi/api/client.py`, `cybsi/api/enrichment/external_dbs.py`,
`cybsi/api/observable/entities_api.py` and `cybsi/api/observable/enums.py`.
Python dictionaries that become JSON request bodies or query-parameter maps
are modelled as insertion-ordered association lists (every key is assigned
at most once in the embedded code, so association-list lookup coincides
with dictionary lookup).  Helper modules of the repository that are not
part of the provided sources (`cybsi.api.api`, `cybsi.api.internal`,
`cybsi.api.pagination`) are modelled from the description in the specification
and marked as such in their doc comments.
-/

namespace Cybsi

/-- A JSON value, as produced by the request-building code.  Python `str`
maps to `str`, `int` to `num`, `bool` to `bool`, lists to `arr`,
dicts to `obj`, and `None` placed into a body to `null`. -/
inductive Json : Type
  | null : Json
  | str (s : String) : Json
  | num (n : Int) : Json
  | bool (b : Bool) : Json
  | arr (xs : List Json) : Json
  | obj (kvs : List (String × Json)) : Json

/-- Lookup of a key in an insertion-ordered association list (the model of
a Python dict whose keys are each assigned once). -/
def jsonLookup (k : String) : List (String × Json) → Option Json
  | [] => none
  | (k2, v) :: rest => if k2 = k then some v else jsonLookup k rest

/-- Enum `EntityTypes` from `cybsi/api/observable/enums.py`. -/
inductive EntityTypes : Type
  | IPAddress | DomainName | File | EmailAddress | PhoneNumber
  | Identity | URL
  deriving Repr, DecidableEq

/-- The server-side string value of each `EntityTypes` member
(`enums.py`, lines 24-30). -/
def EntityTypes.value : EntityTypes → String
  | .IPAddress => "IPAddress"
  | .DomainName => "DomainName"
  | .File => "File"
  | .EmailAddress => "EmailAddress"
  | .PhoneNumber => "PhoneNumber"
  | .Identity => "Identity"
  | .URL => "URL"

/-- Enum `EntityKeyTypes` from `cybsi/api/observable/enums.py`. -/
inductive EntityKeyTypes : Type
  | String | MD5 | SHA1 | SHA256 | IANAID | NICHandle
  deriving Repr, DecidableEq

/-- The server-side string value of each `EntityKeyTypes` member
(`enums.py`, lines 37-42): note `MD5 = "MD5Hash"` etc.  (Named outside
the `EntityKeyTypes` namespace because the `String` constructor would
shadow the `String` type there.) -/
def entityKeyTypeValue : EntityKeyTypes → String
  | .String => "String"
  | .MD5 => "MD5Hash"
  | .SHA1 => "SHA1Hash"
  | .SHA256 => "SHA256Hash"
  | .IANAID => "IANAID"
  | .NICHandle => "NICHandle"

/-- The Python member name (identifier) of each `EntityKeyTypes` member,
as written in `enums.py`; used to state that serialization sends the
`.value`, not the member name. -/
def entityKeyTypeMemberName : EntityKeyTypes → String
  | .String => "String"
  | .MD5 => "MD5"
  | .SHA1 => "SHA1"
  | .SHA256 => "SHA256"
  | .IANAID => "IANAID"
  | .NICHandle => "NICHandle"

/-- Enum `EntityAggregateSections` from `cybsi/api/observable/enums.py`. -/
inductive EntityAggregateSections : Type
  | AssociatedAttributes | NaturalAttributes | Threat | GeoIP | Labels
  deriving Repr, DecidableEq

/-- The server-side string value of each `EntityAggregateSections` member. -/
def EntityAggregateSections.value : EntityAggregateSections → String
  | .AssociatedAttributes => "AssociatedAttributes"
  | .NaturalAttributes => "NaturalAttributes"
  | .Threat => "Threat"
  | .GeoIP => "GeoIP"
  | .Labels => "Labels"

/-- Enum `LinkDirection` from `cybsi/api/observable/enums.py`. -/
inductive LinkDirection : Type
  | Forward | Reverse
  deriving Repr, DecidableEq

/-- The server-side string value of each `LinkDirection` member. -/
def LinkDirection.value : LinkDirection → String
  | .Forward => "Forward"
  | .Reverse => "Reverse"

/-- Enum `RelationshipKinds` from `cybsi/api/observable/enums.py`. -/
inductive RelationshipKinds : Type
  | Has | Contains | BelongsTo | ConnectsTo | Drops | Uses | Owns
  | Supports | ResolvesTo | VariantOf | Hosts | Serves | Locates
  deriving Repr, DecidableEq

/-- The server-side string value of each `RelationshipKinds` member. -/
def RelationshipKinds.value : RelationshipKinds → String
  | .Has => "Has"
  | .Contains => "Contains"
  | .BelongsTo => "BelongsTo"
  | .ConnectsTo => "ConnectsTo"
  | .Drops => "Drops"
  | .Uses => "Uses"
  | .Owns => "Owns"
  | .Supports => "Supports"
  | .ResolvesTo => "ResolvesTo"
  | .VariantOf => "VariantOf"
  | .Hosts => "Hosts"
  | .Serves => "Serves"
  | .Locates => "Locates"

/-- Enum `AttributeNames` from `cybsi/api/observable/enums.py` (lines 46-289):
exactly the 29 members declared there. -/
inductive AttributeNames : Type
  | Class | RegistrationCountry | DisplayNames | IsIoC | IsTrusted
  | Names | NodeRoles | Sectors | Size | IsDGA
  | MalwareClasses | MalwareFamilies | RelatedMalwareFamilies
  | IsDelegated | Statuses | ASN | RegionalInternetRegistry
  | ThreatCategory | RelatedThreatCategory | MalwareNames
  | Campaigns | ThreatActors | AffectedCountries
  | ExploitedVulnerabilities | TargetedSectors | PotentialDamage
  | Platforms | Tactics | Techniques
  deriving Repr, DecidableEq

/-- Modelled from the spec: the explicit-null sentinel type of
`cybsi.api.api` (not among the provided sources).  The spec describes
"a tri-state convention (`None` = leave unchanged, explicit-null sentinel =
clear field, value = set field)".  A Python `Nullable[X]` argument is
either `None` (embedded `Option.none`), the sentinel `Null`
(embedded `some NullableValue.null`), or a value `x`
(embedded `some (NullableValue.value x)`). -/
inductive NullableValue (α : Type) : Type
  | null : NullableValue α
  | value (a : α) : NullableValue α
  deriving Repr, DecidableEq

/-- A Python `Nullable[α]` argument: `none` is Python `None`. -/
abbrev Nullable (α : Type) : Type := Option (NullableValue α)

/-- Modelled from the spec: `_unwrap_nullable` of `cybsi.api.api` (not
among the provided sources) turns the sentinel `Null` into Python `None`
(which serializes as JSON `null`) and passes ordinary values through. -/
def unwrapNullable {α : Type} : NullableValue α → Option α
  | .null => none
  | .value a => some a

/-- Place an unwrapped nullable string into a JSON body: Python `None`
serializes as JSON `null`, a string as a JSON string. -/
def jsonOfOptStr : Option String → Json
  | none => Json.null
  | some s => Json.str s

/-- Place an unwrapped nullable int into a JSON body. -/
def jsonOfOptInt : Option Int → Json
  | none => Json.null
  | some n => Json.num n

/-- The PATCH body built by `ExternalDBsAPI.edit`
(`cybsi/api/enrichment/external_dbs.py`, lines 98-108): an initially
empty dict, to which each key is added only when the corresponding
argument is not `None`; `Nullable` arguments are unwrapped, so the
sentinel `Null` becomes JSON `null`. -/
def externalDBsEditForm
    (entity_types : Option (List EntityTypes))
    (web_page_url : Nullable String)
    (task_execution_timeout : Nullable Int)
    (task_execution_attempts_count : Nullable Int) :
    List (String × Json) :=
  (match entity_types with
    | none => []
    | some ts => [("entityTypes", Json.arr (ts.map (fun t => Json.str t.value)))]) ++
  (match web_page_url with
    | none => []
    | some w => [("webPageURL", jsonOfOptStr (unwrapNullable w))]) ++
  (match task_execution_timeout with
    | none => []
    | some t => [("taskExecutionTimeout", jsonOfOptInt (unwrapNullable t))]) ++
  (match task_execution_attempts_count with
    | none => []
    | some c => [("taskExecutionAttemptsCount", jsonOfOptInt (unwrapNullable c))])

/-- The request path used by `ExternalDBsAPI.edit` (line 109): the
`_path` value `/enrichment/external-dbs`, a slash, and the uuid. -/
def externalDBsEditPath (db_uuid : String) : String :=
  "/enrichment/external-dbs/" ++ db_uuid

/-- The body built by `ExternalDBForm.__init__`
(`cybsi/api/enrichment/external_dbs.py`, lines 164-180): `dataSourceUUID`
(the `str` of the uuid) and `entityTypes` are always set, the remaining
three keys only when the corresponding argument is not `None`.  UUIDs are
modelled by their string form. -/
def externalDBFormData
    (data_source_uuid : String)
    (entity_types : List EntityTypes)
    (web_page_url : Option String)
    (task_execution_timeout : Option Int)
    (task_execution_attempts_count : Option Int) :
    List (String × Json) :=
  [("dataSourceUUID", Json.str data_source_uuid),
   ("entityTypes", Json.arr (entity_types.map (fun t => Json.str t.value)))] ++
  (match web_page_url with
    | none => []
    | some w => [("webPageURL", Json.str w)]) ++
  (match task_execution_timeout with
    | none => []
    | some t => [("taskExecutionTimeout", Json.num t)]) ++
  (match task_execution_attempts_count with
    | none => []
    | some c => [("taskExecutionAttemptsCount", Json.num c)])

/-- A Python `datetime` argument.  Only its RFC 3339 rendering reaches a
request, so the model carries exactly that rendering. -/
structure Datetime : Type where
  rfc3339 : String

/-- Modelled from the spec: `rfc3339_timestamp` of `cybsi.api.internal`
(not among the provided sources) serializes a datetime as an RFC 3339
timestamp string. -/
def rfc3339Timestamp (d : Datetime) : String :=
  d.rfc3339

/-- A view of an aggregated entity: a thin wrapper over the JSON response,
as built by `EntityAggregateView(r.json())`. -/
structure EntityAggregateView : Type where
  raw : Json

/-- The query parameters built by `EntitiesAPI.view`
(`cybsi/api/observable/entities_api.py`, lines 134-140): each key is
added only when the corresponding argument `is not None`. -/
def entitiesViewParams
    (sections : Option (List EntityAggregateSections))
    (forecast_at : Option Datetime)
    (with_valuable_facts : Option Bool) :
    List (String × Json) :=
  (match sections with
    | none => []
    | some ss => [("section", Json.arr (ss.map (fun s => Json.str s.value)))]) ++
  (match forecast_at with
    | none => []
    | some d => [("forecastAt", Json.str (rfc3339Timestamp d))]) ++
  (match with_valuable_facts with
    | none => []
    | some b => [("valuableFacts", Json.bool b)])

/-- The request path of `EntitiesAPI.view` (line 142): the `_path`
value `/observable/entities`, a slash, and the entity uuid. -/
def entitiesViewPath (entity_uuid : String) : String :=
  "/observable/entities/" ++ entity_uuid

/-- The method `EntitiesAPI.view` (lines 90-144): builds the params, issues
`GET {path}` through the connector, and wraps the JSON response in an
`EntityAggregateView`.  The method `do_get` of the connector is abstracted as a
function from path and params to the response JSON. -/
def entitiesView
    (do_get : String → List (String × Json) → Json)
    (entity_uuid : String)
    (sections : Option (List EntityAggregateSections))
    (forecast_at : Option Datetime)
    (with_valuable_facts : Option Bool) :
    EntityAggregateView :=
  EntityAggregateView.mk
    (do_get (entitiesViewPath entity_uuid)
      (entitiesViewParams sections forecast_at with_valuable_facts))

/-- Python truthiness of an `Optional[str]`: `None` and `""` are falsy. -/
def pyTruthyOptStr : Option String → Bool
  | none => false
  | some s => decide (s ≠ "")

/-- Python truthiness of an `Optional[int]`: `None` and `0` are falsy. -/
def pyTruthyOptInt : Option Int → Bool
  | none => false
  | some n => decide (n ≠ 0)

/-- The query parameters built by `EntitiesAPI.aggregate`
(`entities_api.py`, lines 193-201): `uuid` is always present;
`section` and `forecastAt` are added when their argument `is not None`;
`cursor` and `limit` are added when their argument is truthy
(`if cursor:` / `if limit:`).  A `Cursor` is an opaque string
(`str(cursor)` is sent); `limit` is sent as an int. -/
def entitiesAggregateParams
    (entity_uuids : List String)
    (sections : Option (List EntityAggregateSections))
    (forecast_at : Option Datetime)
    (cursor : Option String)
    (limit : Option Int) :
    List (String × Json) :=
  [("uuid", Json.arr (entity_uuids.map Json.str))] ++
  (match sections with
    | none => []
    | some ss => [("section", Json.arr (ss.map (fun s => Json.str s.value)))]) ++
  (match forecast_at with
    | none => []
    | some d => [("forecastAt", Json.str (rfc3339Timestamp d))]) ++
  (if pyTruthyOptStr cursor then
    [("cursor", Json.str (cursor.getD ""))] else []) ++
  (if pyTruthyOptInt limit then
    [("limit", Json.num (limit.getD 0))] else [])

/-- The query parameters built by `EntitiesAPI.forecast_links`
(`entities_api.py`, lines 343-357).  The first five keys are added when
their argument `is not None`; `cursor` and `limit` when truthy; note the
code sends `str(limit)` here (a string), unlike `aggregate`.
`confidence_threshold` is a Python float; it is modelled with integral
values only, since no claim depends on the value of the float. -/
def entitiesForecastLinksParams
    (related_entity_types : Option (List EntityTypes))
    (direction : Option (List LinkDirection))
    (kind : Option (List RelationshipKinds))
    (confidence_threshold : Option Int)
    (forecast_at : Option Datetime)
    (cursor : Option String)
    (limit : Option Int) :
    List (String × Json) :=
  (match related_entity_types with
    | none => []
    | some ts =>
      [("relatedEntityType", Json.arr (ts.map (fun t => Json.str t.value)))]) ++
  (match direction with
    | none => []
    | some ds => [("direction", Json.arr (ds.map (fun d => Json.str d.value)))]) ++
  (match kind with
    | none => []
    | some ks => [("kind", Json.arr (ks.map (fun k => Json.str k.value)))]) ++
  (match confidence_threshold with
    | none => []
    | some c => [("confidenceThreshold", Json.num c)]) ++
  (match forecast_at with
    | none => []
    | some d => [("forecastAt", Json.str (rfc3339Timestamp d))]) ++
  (if pyTruthyOptStr cursor then
    [("cursor", Json.str (cursor.getD ""))] else []) ++
  (if pyTruthyOptInt limit then
    [("limit", Json.str (toString (limit.getD 0)))] else [])

/-- The query parameters built by `EntitiesAPI.canonize_key`
(`entities_api.py`, lines 238-242): the `.value` strings of the two enum
members and the raw key value. -/
def canonizeKeyParams
    (entity_type : EntityTypes) (key_type : EntityKeyTypes)
    (value : String) : List (String × Json) :=
  [("entityType", Json.str entity_type.value),
   ("keyType", Json.str (entityKeyTypeValue key_type)),
   ("key", Json.str value)]

/-- The kebab-case converter dict `_attr_value_kebab_converters`
(`entities_api.py`, lines 38-50), restricted to the keys that exist in
`AttributeNames`.  The source dict has two further entries,
`AttributeNames.MalwareFamilyAliases: "malware-family-aliases"` and
`AttributeNames.IsMalicious: "is-malicious"`, whose keys are not members
of `AttributeNames` as declared in `enums.py` — in Python those key
expressions raise `AttributeError` when the module is imported, so they
cannot be represented in the embedded type. -/
def attrValueKebabConverters : List (AttributeNames × String) :=
  [(AttributeNames.Size, "size"),
   (AttributeNames.Class, "class"),
   (AttributeNames.Sectors, "sectors"),
   (AttributeNames.DisplayNames, "display-names"),
   (AttributeNames.Names, "names"),
   (AttributeNames.NodeRoles, "node-roles"),
   (AttributeNames.IsIoC, "is-ioc"),
   (AttributeNames.IsTrusted, "is-trusted"),
   (AttributeNames.IsDGA, "is-dga")]

/-- The function `_convert_attribute_name_kebab` (`entities_api.py`, lines 27-35):
a plain dict lookup.  A key that is absent raises `KeyError` in Python,
modelled by `none`. -/
def convertAttributeNameKebab (attribute_name : AttributeNames) :
    Option String :=
  (attrValueKebabConverters.find? (fun p => p.1 = attribute_name)).map Prod.snd

/-- The path built by `EntitiesAPI.forecast_attribute_values`
(`entities_api.py`, lines 288-289): present only when the kebab
conversion succeeds; otherwise the dict lookup raises before any
request is made. -/
def forecastAttributeValuesPath (entity_uuid : String)
    (attr_name : AttributeNames) : Option String :=
  (convertAttributeNameKebab attr_name).map
    (fun kebab => "/observable/entities/" ++ entity_uuid ++ "/attributes/" ++ kebab)

/-- Modelled from the spec: `APIKeyAuth` of `cybsi.api.auth` (not among
the provided sources), as constructed by `CybsiClient.__init__` via
`APIKeyAuth("", config.api_key)`: it carries the two string arguments it
was given. -/
structure APIKeyAuth : Type where
  api_url : String
  api_key : String
  deriving Repr, DecidableEq

/-- The `auth` slot of a `Config` (`client.py`, line 33):
`Union[APIKeyAuth, Callable, None]`, with `None` as `Option.none` and
callables drawn from an abstract type `α`. -/
abbrev AuthSlot (α : Type) : Type := Option (APIKeyAuth ⊕ α)

/-- The dataclass `Config` from `cybsi/api/client.py` (lines 18-35), with the Python
defaults. -/
structure Config (α : Type) : Type where
  api_url : String
  auth : AuthSlot α := none
  ssl_verify : Bool := true
  api_key : String := ""

/-- Modelled from the spec: `HTTPConnector` of `cybsi.api.internal` (not
among the provided sources).  Per the spec the connector merely "issues
authenticated HTTP requests" when an operation is invoked; its
construction stores the base URL, auth and SSL flag and performs no
request, recorded by the (always empty at construction) list of
requests issued. -/
structure HTTPConnector (α : Type) : Type where
  base_url : String
  auth : AuthSlot α
  ssl_verify : Bool
  requests_made : List String

/-- The constructor `CybsiClient.__init__` (`client.py`, lines 73-82): raises
`CybsiError` when `config.auth is None and not config.api_key`
(a Python `str` is falsy exactly when empty); otherwise the
auth of the connector is an `APIKeyAuth` of the empty string and `config.api_key` when `config.api_key` is truthy
and `config.auth` otherwise. -/
def cybsiClientInit {α : Type} (config : Config α) :
    Except String (HTTPConnector α) :=
  if config.auth.isNone && config.api_key.isEmpty then
    Except.error "No authorization mechanism configured for client"
  else
    let auth : AuthSlot α :=
      if !config.api_key.isEmpty then
        some (Sum.inl (APIKeyAuth.mk "" config.api_key))
      else config.auth
    Except.ok
      { base_url := config.api_url
        auth := auth
        ssl_verify := config.ssl_verify
        requests_made := [] }

/-- Modelled from the spec: the server response wrapped by a `Page` of
`cybsi.api.pagination` (not among the provided sources): a list of items
and an opaque continuation cursor which the server may omit. -/
structure PageResp (α : Type) : Type where
  items : List α
  cursor : Option String

/-- Modelled from the spec: iterating the sequence of pages of a
paginated GET endpoint (`cybsi.api.pagination` is not among the provided
sources).  `server` abstracts the endpoint as a function of the optional
`cursor` query parameter; the walk issues the first GET with the cursor
it is called with (`none` when a paginated operation starts a fresh
sequence), then repeatedly issues the next GET with the cursor returned
by the previous response, stopping as soon as a response omits the
cursor.  `fuel` bounds the number of requests so the walk is a total
function; laziness is modelled by this bound. -/
def walkPages {α : Type} (server : Option String → PageResp α) :
    Nat → Option String → List (PageResp α)
  | 0, _ => []
  | fuel + 1, c =>
    let r := server c
    r :: (match r.cursor with
      | none => []
      | some c2 => walkPages server fuel (some c2))

/-- The items of the walked pages, in order: the lazy item sequence a
`Page` exposes. -/
def chainItems {α : Type} (server : Option String → PageResp α)
    (fuel : Nat) (c : Option String) : List α :=
  (walkPages server fuel c).flatMap PageResp.items

/-- A Python version string, modelled as its character list. -/
abbrev PyStr : Type := List Char

/-- Python split with maxsplit 1 on a single-character separator, as used by
`Version.__init__`: `none` when the separator does not occur (the code
guards the split with `sep in s`), otherwise the parts before and after
the first occurrence. -/
def splitOnce (sep : Char) : PyStr → Option (PyStr × PyStr)
  | [] => none
  | x :: xs =>
    if x = sep then some ([], xs)
    else (splitOnce sep xs).map (fun p => (x :: p.1, p.2))

/-- Numeric value of a digit string. -/
def natVal (l : PyStr) : Nat :=
  l.foldl (fun n c => 10 * n + (c.toNat - 48)) 0

/-- Python `int(p)` as used on the dot-separated core components of a
version string: succeeds on a non-empty all-digit string with its
numeric value, fails (`ValueError`) otherwise.  (The Python `int` also
accepts signs, surrounding whitespace and underscores; the components
produced by a `MAJOR.MINOR.PATCH` core are plain digit runs, and no
claim depends on the other inputs.) -/
def pyIntDigits (l : PyStr) : Option Nat :=
  if l ≠ [] ∧ l.all (fun c => c.isDigit) then some (natVal l) else none

/-- The class `Version` from `cybsi/api/client.py` (lines 183-228): the stored
original string, the three integer components, and the raw prerelease
and build parts (empty lists when absent, exactly as the Python code
stores `""`). -/
structure Version : Type where
  version : PyStr
  major : Nat
  minor : Nat
  patch : Nat
  prereleaseRaw : PyStr
  buildRaw : PyStr

/-- The constructor `Version.__init__` (`client.py`, lines 186-191):
the version string is split on the first plus sign when one occurs
(the part after it is the build text, empty otherwise); the part before
it is split on its first dash when one occurs (the part after the dash
is the prerelease text, empty otherwise); the remaining core is split
on dots with maxsplit 2 and the parts are converted by `int` and
unpacked into major, minor and patch.  A `ValueError` from `int` or
from unpacking fewer than three parts is modelled by `none`. -/
def Version.parse (version : PyStr) : Option Version :=
  let pb : PyStr × PyStr :=
    match splitOnce '+' version with
    | some (a, b) => (a, b)
    | none => (version, [])
  let cp : PyStr × PyStr :=
    match splitOnce '-' pb.1 with
    | some (a, b) => (a, b)
    | none => (pb.1, [])
  match splitOnce '.' cp.1 with
  | none => none
  | some (m1, rest) =>
    match splitOnce '.' rest with
    | none => none
    | some (m2, m3) =>
      match pyIntDigits m1, pyIntDigits m2, pyIntDigits m3 with
      | some M, some m, some p =>
        some ⟨version, M, m, p, cp.2, pb.2⟩
      | _, _, _ => none

/-- The `prerelease` property (`client.py`, lines 214-220): `None` when
the stored prerelease text is empty. -/
def Version.prerelease (v : Version) : Option PyStr :=
  if v.prereleaseRaw ≠ [] then some v.prereleaseRaw else none

/-- The `build` property (`client.py`, lines 222-228): `None` when the
stored build text is empty. -/
def Version.build (v : Version) : Option PyStr :=
  if v.buildRaw ≠ [] then some v.buildRaw else none

/-- The method `Version.__str__` (`client.py`, lines 193-194): the stored original
input string. -/
def Version.str (v : Version) : PyStr :=
  v.version

/-- An optional version-string segment introduced by a separator:
`[-PRERELEASE]` or `[+BUILD]`. -/
def optSeg (sep : Char) : Option PyStr → PyStr
  | none => []
  | some s => sep :: s

end Cybsi

namespace Cybsi

/-- How a single nullable field of the edit PATCH body must behave per the
tri-state convention, for a key `k` extracted from a body `body`. -/
def triState {α : Type} (toJson : α → Json)
    (arg : Nullable α) (k : String) (body : List (String × Json)) : Prop :=
  jsonLookup k body =
    match arg with
    | none => none
    | some NullableValue.null => some Json.null
    | some (NullableValue.value a) => some (toJson a)

/-- C1: `ExternalDBsAPI.edit` implements the tri-state nullable-field
convention for its PATCH body: for each of `web_page_url`,
`task_execution_timeout` and `task_execution_attempts_count`, a `None`
argument leaves the corresponding key (`webPageURL`,
`taskExecutionTimeout`, `taskExecutionAttemptsCount`) absent, the
sentinel `Null` makes it present and equal to JSON `null`, and an
ordinary value makes it present and equal to that value. -/
theorem edit_tri_state_nullable
    (entity_types : Option (List EntityTypes))
    (web_page_url : Nullable String)
    (task_execution_timeout : Nullable Int)
    (task_execution_attempts_count : Nullable Int) :
    triState (fun s => Json.str s) web_page_url "webPageURL"
      (externalDBsEditForm entity_types web_page_url
        task_execution_timeout task_execution_attempts_count) ∧
    triState (fun n => Json.num n) task_execution_timeout "taskExecutionTimeout"
      (externalDBsEditForm entity_types web_page_url
        task_execution_timeout task_execution_attempts_count) ∧
    triState (fun n => Json.num n) task_execution_attempts_count
      "taskExecutionAttemptsCount"
      (externalDBsEditForm entity_types web_page_url
        task_execution_timeout task_execution_attempts_count) := by
  refine ⟨?_, ?_, ?_⟩ <;>
    rcases entity_types with _ | ts <;>
    rcases web_page_url with _ | (_ | w) <;>
    rcases task_execution_timeout with _ | (_ | t) <;>
    rcases task_execution_attempts_count with _ | (_ | c) <;>
    simp [triState, externalDBsEditForm, jsonLookup, jsonOfOptStr,
      jsonOfOptInt, unwrapNullable]

/-- C7: the body built by `ExternalDBForm` always contains
`dataSourceUUID` (the string form of the uuid) and `entityTypes` (the
`.value` strings in the given order); each of `webPageURL`,
`taskExecutionTimeout` and `taskExecutionAttemptsCount` is present iff
the corresponding constructor argument is not `None`, with that value;
and no other keys appear. -/
theorem externalDBForm_body_keys
    (data_source_uuid : String) (entity_types : List EntityTypes)
    (web_page_url : Option String) (task_execution_timeout : Option Int)
    (task_execution_attempts_count : Option Int) :
    let body := externalDBFormData data_source_uuid entity_types
      web_page_url task_execution_timeout task_execution_attempts_count
    jsonLookup "dataSourceUUID" body = some (Json.str data_source_uuid) ∧
    jsonLookup "entityTypes" body =
      some (Json.arr (entity_types.map (fun t => Json.str t.value))) ∧
    jsonLookup "webPageURL" body = web_page_url.map Json.str ∧
    jsonLookup "taskExecutionTimeout" body =
      task_execution_timeout.map Json.num ∧
    jsonLookup "taskExecutionAttemptsCount" body =
      task_execution_attempts_count.map Json.num ∧
    ∀ kv ∈ body, kv.1 ∈ ["dataSourceUUID", "entityTypes", "webPageURL",
      "taskExecutionTimeout", "taskExecutionAttemptsCount"] := by
  rcases web_page_url with _ | w <;>
    rcases task_execution_timeout with _ | t <;>
    rcases task_execution_attempts_count with _ | c <;>
    simp [externalDBFormData, jsonLookup]

/-- C6: `EntitiesAPI.view` issues a GET to
`/observable/entities/{entity_uuid}` whose query parameters contain
`section` iff `sections` is not `None` (the list of section `.value`
strings), `forecastAt` iff `forecast_at` is not `None` (its RFC 3339
timestamp), `valuableFacts` iff `with_valuable_facts` is not `None`,
and nothing else, and wraps the JSON response in an
`EntityAggregateView`. -/
theorem entitiesView_request_and_parse
    (do_get : String → List (String × Json) → Json)
    (entity_uuid : String)
    (sections : Option (List EntityAggregateSections))
    (forecast_at : Option Datetime)
    (with_valuable_facts : Option Bool) :
    let params := entitiesViewParams sections forecast_at with_valuable_facts
    entitiesView do_get entity_uuid sections forecast_at with_valuable_facts =
      EntityAggregateView.mk
        (do_get ("/observable/entities/" ++ entity_uuid) params) ∧
    jsonLookup "section" params =
      sections.map (fun ss => Json.arr (ss.map (fun s => Json.str s.value))) ∧
    jsonLookup "forecastAt" params =
      forecast_at.map (fun d => Json.str (rfc3339Timestamp d)) ∧
    jsonLookup "valuableFacts" params = with_valuable_facts.map Json.bool ∧
    ∀ kv ∈ params, kv.1 ∈ ["section", "forecastAt", "valuableFacts"] := by
  rcases sections with _ | ss <;>
    rcases forecast_at with _ | d <;>
    rcases with_valuable_facts with _ | b <;>
    simp [entitiesView, entitiesViewParams, entitiesViewPath, jsonLookup]

/-- C10: in `EntitiesAPI.aggregate` and `EntitiesAPI.forecast_links` the
`cursor` and `limit` query parameters are included only when the
argument is truthy, so passing `limit=0` or an empty cursor string
builds exactly the same parameters as not passing them; by contrast
`sections` (and the other optional arguments) are tested against `None`,
so an empty sections list still produces a `section` key. -/
theorem aggregate_forecastLinks_truthy_params
    (entity_uuids : List String)
    (sections : Option (List EntityAggregateSections))
    (forecast_at : Option Datetime)
    (related_entity_types : Option (List EntityTypes))
    (direction : Option (List LinkDirection))
    (kind : Option (List RelationshipKinds))
    (confidence_threshold : Option Int)
    (cursor : Option String) (limit : Option Int) :
    (entitiesAggregateParams entity_uuids sections forecast_at
        (some "") limit =
      entitiesAggregateParams entity_uuids sections forecast_at none limit) ∧
    (entitiesAggregateParams entity_uuids sections forecast_at
        cursor (some 0) =
      entitiesAggregateParams entity_uuids sections forecast_at cursor none) ∧
    (entitiesForecastLinksParams related_entity_types direction kind
        confidence_threshold forecast_at (some "") limit =
      entitiesForecastLinksParams related_entity_types direction kind
        confidence_threshold forecast_at none limit) ∧
    (entitiesForecastLinksParams related_entity_types direction kind
        confidence_threshold forecast_at cursor (some 0) =
      entitiesForecastLinksParams related_entity_types direction kind
        confidence_threshold forecast_at cursor none) ∧
    (jsonLookup "section"
        (entitiesAggregateParams entity_uuids (some []) forecast_at
          cursor limit) = some (Json.arr [])) := by
  exact ⟨rfl, rfl, rfl, rfl, rfl⟩

/-- C4: no client-side validation: `ExternalDBsAPI.edit` places any
`task_execution_timeout` and `task_execution_attempts_count` values into
the body unchanged (even values far outside the documented ranges
[1;864000] and [1;1000]), and `EntitiesAPI.aggregate` builds its request
for any `entity_uuids` list, including the empty one, forwarding the
list unchanged. -/
theorem no_client_side_validation
    (t c : Int) (entity_uuids : List String) :
    jsonLookup "taskExecutionTimeout"
      (externalDBsEditForm none none (some (NullableValue.value t)) none) =
      some (Json.num t) ∧
    jsonLookup "taskExecutionAttemptsCount"
      (externalDBsEditForm none none none (some (NullableValue.value c))) =
      some (Json.num c) ∧
    jsonLookup "uuid"
      (entitiesAggregateParams entity_uuids none none none none) =
      some (Json.arr (entity_uuids.map Json.str)) ∧
    jsonLookup "uuid"
      (entitiesAggregateParams [] none none none none) =
      some (Json.arr []) := by
  refine ⟨rfl, ?_, rfl, rfl⟩
  simp [externalDBsEditForm, jsonLookup, jsonOfOptInt, unwrapNullable]

/-- C5: enum members are serialized by their server-side `.value` string,
not their Python member name: `canonize_key` sends
`entity_type.value` and `key_type.value` (for `EntityKeyTypes.MD5` the
string `"MD5Hash"`, which differs from the member name `"MD5"`), and the
`entityTypes` lists of `ExternalDBsAPI.edit` and `ExternalDBForm` are the
member `.value` strings in order. -/
theorem enums_serialized_by_value
    (entity_type : EntityTypes) (key_type : EntityKeyTypes)
    (value : String) (ts : List EntityTypes) (u : String) :
    jsonLookup "entityType" (canonizeKeyParams entity_type key_type value) =
      some (Json.str entity_type.value) ∧
    jsonLookup "keyType" (canonizeKeyParams entity_type key_type value) =
      some (Json.str (entityKeyTypeValue key_type)) ∧
    entityKeyTypeValue EntityKeyTypes.MD5 = "MD5Hash" ∧
    entityKeyTypeValue EntityKeyTypes.MD5 ≠
      entityKeyTypeMemberName EntityKeyTypes.MD5 ∧
    jsonLookup "entityTypes" (externalDBsEditForm (some ts) none none none) =
      some (Json.arr (ts.map (fun t => Json.str t.value))) ∧
    jsonLookup "entityTypes" (externalDBFormData u ts none none none) =
      some (Json.arr (ts.map (fun t => Json.str t.value))) := by
  refine ⟨rfl, rfl, rfl, by decide, rfl, rfl⟩

/-- C3 (code bug): the kebab-case conversion used by
`forecast_attribute_values` is NOT total over `AttributeNames`: the
converter dict `_attr_value_kebab_converters` covers only 9 of the 29
members, so for example `AttributeNames.ASN` has no entry and the dict
lookup raises `KeyError` before any request is made (modelled by
`none`); a covered member such as `IsIoC` does produce the path. -/
theorem kebab_conversion_not_total (u : String) :
    convertAttributeNameKebab AttributeNames.ASN = none ∧
    forecastAttributeValuesPath u AttributeNames.ASN = none ∧
    convertAttributeNameKebab AttributeNames.Techniques = none ∧
    convertAttributeNameKebab AttributeNames.IsIoC = some "is-ioc" ∧
    forecastAttributeValuesPath u AttributeNames.IsIoC =
      some ("/observable/entities/" ++ u ++ "/attributes/" ++ "is-ioc") ∧
    attrValueKebabConverters.length = 9 := by
  refine ⟨rfl, rfl, rfl, rfl, rfl, rfl⟩

/-- C9: constructing a `CybsiClient` raises `CybsiError` iff
`config.auth` is `None` and `config.api_key` is empty; a non-empty
`api_key` makes the client use `APIKeyAuth("", api_key)` with
`config.auth` ignored (the connector is the same whatever `auth` held);
otherwise the configured auth is used; and construction issues no HTTP
request. -/
theorem cybsiClientInit_auth_selection {α : Type} (config : Config α) :
    ((∃ e, cybsiClientInit config = Except.error e) ↔
      (config.auth = none ∧ config.api_key = "")) ∧
    (config.api_key ≠ "" →
      cybsiClientInit config = Except.ok
        { base_url := config.api_url
          auth := some (Sum.inl (APIKeyAuth.mk "" config.api_key))
          ssl_verify := config.ssl_verify
          requests_made := [] }) ∧
    (config.api_key = "" → ∀ a, config.auth = some a →
      cybsiClientInit config = Except.ok
        { base_url := config.api_url
          auth := some a
          ssl_verify := config.ssl_verify
          requests_made := [] }) ∧
    (∀ conn, cybsiClientInit config = Except.ok conn →
      conn.requests_made = []) := by
  obtain ⟨url, auth, ssl, key⟩ := config
  by_cases hk : key = ""
  · subst hk
    cases auth with
    | none =>
      refine ⟨?_, ?_, ?_, ?_⟩
      · simp [cybsiClientInit, Option.isNone, String.isEmpty_iff]
      · intro h; exact absurd rfl h
      · intro _ a ha; exact absurd ha (by simp)
      · intro conn h
        simp [cybsiClientInit, Option.isNone, String.isEmpty_iff] at h
    | some a =>
      refine ⟨?_, ?_, ?_, ?_⟩
      · simp [cybsiClientInit, Option.isNone, String.isEmpty_iff]
      · intro h; exact absurd rfl h
      · rintro _ a2 ⟨rfl⟩
        simp [cybsiClientInit, Option.isNone, String.isEmpty_iff]
      · intro conn h
        simp [cybsiClientInit, Option.isNone, String.isEmpty_iff] at h
        exact h ▸ rfl
  · have hke : key.isEmpty = false := by
      rcases h : key.isEmpty with _ | _
      · rfl
      · exact absurd ((String.isEmpty_iff key).mp h) hk
    refine ⟨?_, ?_, ?_, ?_⟩
    · constructor
      · rintro ⟨e, he⟩
        simp [cybsiClientInit, hke] at he
      · rintro ⟨-, hkey⟩; exact absurd hkey hk
    · intro _
      simp [cybsiClientInit, hke]
    · intro hkey; exact absurd hkey hk
    · intro conn h
      simp [cybsiClientInit, hke] at h
      exact h ▸ rfl

/-- C9 witness: a config with a non-empty api key and no auth callable
yields a connector using `APIKeyAuth("", key)` and no requests issued. -/
theorem cybsiClientInit_auth_selection_witness :
    cybsiClientInit (α := Empty)
      { api_url := "http://localhost:80/api", auth := none,
        ssl_verify := true, api_key := "k" } = Except.ok
      { base_url := "http://localhost:80/api"
        auth := some (Sum.inl (APIKeyAuth.mk "" "k"))
        ssl_verify := true
        requests_made := [] } :=
  (cybsiClientInit_auth_selection
    { api_url := "http://localhost:80/api", auth := none,
      ssl_verify := true, api_key := "k" }).2.1 (by decide)

/-- C2 (pagination, modelled from the spec): a `Page` wraps a server
response carrying an optional continuation cursor; walking the sequence
issues the first GET of the call (so each call starts the sequence at
its own first page), then repeatedly issues the next GET with the
cursor the previous response returned, ending as soon as a response
omits the cursor; the exposed item sequence is the concatenation of the
page item lists in that order. -/
theorem page_cursor_walk {α : Type} (server : Option String → PageResp α)
    (fuel : Nat) (c : Option String) (c2 : String) :
    ((server c).cursor = none → walkPages server (fuel + 1) c = [server c]) ∧
    ((server c).cursor = some c2 →
      walkPages server (fuel + 1) c =
        server c :: walkPages server fuel (some c2)) ∧
    ((walkPages server (fuel + 1) c).head? = some (server c)) ∧
    (chainItems server (fuel + 1) c =
      (server c).items ++
        (match (server c).cursor with
          | none => []
          | some c3 => chainItems server fuel (some c3))) := by
  refine ⟨?_, ?_, ?_, ?_⟩
  · intro h; simp [walkPages, h]
  · intro h; simp [walkPages, h]
  · simp [walkPages]
  · rcases h : (server c).cursor with _ | c3 <;>
      simp [chainItems, walkPages, h]

/-- C2 witness: a two-page server walked from a fresh call: the first
cursor of the first response drives the second GET. -/
theorem page_cursor_walk_witness :
    walkPages (fun c => match c with
      | none => PageResp.mk [1, 2] (some "n")
      | some _ => PageResp.mk [3] none) 2 none =
      PageResp.mk [1, 2] (some "n") ::
        walkPages (fun c => match c with
          | none => PageResp.mk [1, 2] (some "n")
          | some _ => PageResp.mk [3] none) 1 (some "n") :=
  (page_cursor_walk (fun c => match c with
      | none => PageResp.mk [1, 2] (some "n")
      | some _ => PageResp.mk [3] none) 1 none "n").2.1 rfl

theorem splitOnce_of_not_mem {sep : Char} {l : PyStr} (h : sep ∉ l) :
    splitOnce sep l = none := by
  induction l with
  | nil => rfl
  | cons x xs ih =>
    have hx : ¬x = sep := by rintro rfl; exact h (List.mem_cons_self _ _)
    simp [splitOnce, hx, ih (fun hm => h (List.mem_cons_of_mem x hm))]

theorem splitOnce_append_cons {sep : Char} {a : PyStr} (b : PyStr)
    (h : sep ∉ a) : splitOnce sep (a ++ sep :: b) = some (a, b) := by
  induction a with
  | nil => simp [splitOnce]
  | cons x xs ih =>
    have hx : ¬x = sep := by rintro rfl; exact h (List.mem_cons_self _ _)
    simp [splitOnce, hx, ih (fun hm => h (List.mem_cons_of_mem x hm))]

theorem not_mem_of_all_digit {c : Char} {l : PyStr} (hc : c.isDigit = false)
    (h : l.all (fun c => c.isDigit) = true) : c ∉ l := by
  intro hm
  have h2 := List.all_eq_true.mp h c hm
  simp only at h2
  rw [hc] at h2
  exact Bool.noConfusion h2

theorem pyIntDigits_of_digits {l : PyStr} (h1 : l ≠ [])
    (h2 : l.all (fun c => c.isDigit) = true) :
    pyIntDigits l = some (natVal l) := by
  simp [pyIntDigits, h1, h2]

/-- C8: parsing a version string of the form
`MAJOR.MINOR.PATCH[-PRERELEASE][+BUILD]` (the code splits on the first
`+`, then on the first `-` of the part before it) yields the three
integer components as `major`, `minor` and `patch`, a `prerelease`
that is `None` exactly when no `-` part is present (otherwise the text
after the first `-` of the pre-build part), a `build` that is `None`
exactly when no `+` part is present (otherwise the text after the first
`+`), and `str` returns the original input unchanged. -/
theorem version_parse_decomposition
    (Ms ms ps : PyStr) (preO bldO : Option PyStr)
    (hM1 : Ms ≠ []) (hM2 : Ms.all (fun c => c.isDigit) = true)
    (hm1 : ms ≠ []) (hm2 : ms.all (fun c => c.isDigit) = true)
    (hp1 : ps ≠ []) (hp2 : ps.all (fun c => c.isDigit) = true)
    (hpre : ∀ s, preO = some s → s ≠ [] ∧ '+' ∉ s)
    (hbld : ∀ b, bldO = some b → b ≠ []) :
    ∃ ver : Version,
      Version.parse
        (Ms ++ '.' :: ms ++ '.' :: ps ++ optSeg '-' preO ++ optSeg '+' bldO) =
        some ver ∧
      ver.major = natVal Ms ∧ ver.minor = natVal ms ∧ ver.patch = natVal ps ∧
      ver.prerelease = preO ∧ ver.build = bldO ∧
      ver.str =
        Ms ++ '.' :: ms ++ '.' :: ps ++ optSeg '-' preO ++ optSeg '+' bldO := by
  have dMplus : '+' ∉ Ms := not_mem_of_all_digit (by decide) hM2
  have dmplus : '+' ∉ ms := not_mem_of_all_digit (by decide) hm2
  have dpplus : '+' ∉ ps := not_mem_of_all_digit (by decide) hp2
  have dMdash : '-' ∉ Ms := not_mem_of_all_digit (by decide) hM2
  have dmdash : '-' ∉ ms := not_mem_of_all_digit (by decide) hm2
  have dpdash : '-' ∉ ps := not_mem_of_all_digit (by decide) hp2
  have dMdot : '.' ∉ Ms := not_mem_of_all_digit (by decide) hM2
  have dmdot : '.' ∉ ms := not_mem_of_all_digit (by decide) hm2
  have hcoreP : '+' ∉ Ms ++ '.' :: ms ++ '.' :: ps := by
    simp only [List.mem_append, List.mem_cons, not_or]
    exact ⟨⟨dMplus, by decide, dmplus⟩, by decide, dpplus⟩
  have hcoreD : '-' ∉ Ms ++ '.' :: ms ++ '.' :: ps := by
    simp only [List.mem_append, List.mem_cons, not_or]
    exact ⟨⟨dMdash, by decide, dmdash⟩, by decide, dpdash⟩
  have hsplitCore : splitOnce '.' (Ms ++ '.' :: ms ++ '.' :: ps) =
      some (Ms, ms ++ '.' :: ps) := by
    have hr : Ms ++ '.' :: ms ++ '.' :: ps = Ms ++ '.' :: (ms ++ '.' :: ps) := by
      rw [List.append_assoc]; rfl
    rw [hr]
    exact splitOnce_append_cons _ dMdot
  have hsplitRest : splitOnce '.' (ms ++ '.' :: ps) = some (ms, ps) :=
    splitOnce_append_cons _ dmdot
  have hpM := pyIntDigits_of_digits hM1 hM2
  have hpm := pyIntDigits_of_digits hm1 hm2
  have hpp := pyIntDigits_of_digits hp1 hp2
  rcases preO with _ | s
  · rcases bldO with _ | b
    · -- no prerelease, no build
      have e1 : splitOnce '+'
          (Ms ++ '.' :: ms ++ '.' :: ps ++ optSeg '-' none ++
            optSeg '+' (none : Option PyStr)) = none := by
        simp only [optSeg, List.append_nil]
        exact splitOnce_of_not_mem hcoreP
      have e2 : splitOnce '-' (Ms ++ '.' :: ms ++ '.' :: ps) = none :=
        splitOnce_of_not_mem hcoreD
      have hparse : Version.parse
          (Ms ++ '.' :: ms ++ '.' :: ps ++ optSeg '-' none ++
            optSeg '+' (none : Option PyStr)) =
          some ⟨Ms ++ '.' :: ms ++ '.' :: ps ++ optSeg '-' none ++
            optSeg '+' (none : Option PyStr),
            natVal Ms, natVal ms, natVal ps, [], []⟩ := by
        simp only [Version.parse, e1]
        simp only [optSeg, List.append_nil, e2, hsplitCore, hsplitRest,
          hpM, hpm, hpp]
      exact ⟨_, hparse, rfl, rfl, rfl, by simp [Version.prerelease],
        by simp [Version.build], rfl⟩
    · -- build only
      have hb := hbld b rfl
      have e1 : splitOnce '+'
          (Ms ++ '.' :: ms ++ '.' :: ps ++ optSeg '-' none ++
            optSeg '+' (some b)) =
          some (Ms ++ '.' :: ms ++ '.' :: ps, b) := by
        simp only [optSeg, List.append_nil]
        exact splitOnce_append_cons _ hcoreP
      have e2 : splitOnce '-' (Ms ++ '.' :: ms ++ '.' :: ps) = none :=
        splitOnce_of_not_mem hcoreD
      have hparse : Version.parse
          (Ms ++ '.' :: ms ++ '.' :: ps ++ optSeg '-' none ++
            optSeg '+' (some b)) =
          some ⟨Ms ++ '.' :: ms ++ '.' :: ps ++ optSeg '-' none ++
            optSeg '+' (some b),
            natVal Ms, natVal ms, natVal ps, [], b⟩ := by
        simp only [Version.parse, e1]
        simp only [optSeg, List.append_nil, e2, hsplitCore, hsplitRest,
          hpM, hpm, hpp]
      exact ⟨_, hparse, rfl, rfl, rfl, by simp [Version.prerelease],
        by simp [Version.build, hb], rfl⟩
  · -- prerelease present
    have hs := hpre s rfl
    have hp1P : '+' ∉ Ms ++ '.' :: ms ++ '.' :: ps ++ optSeg '-' (some s) := by
      simp only [optSeg, List.mem_append, List.mem_cons, not_or]
      exact ⟨by
        simp only [List.mem_append, List.mem_cons, not_or] at hcoreP
        exact hcoreP, by decide, hs.2⟩
    rcases bldO with _ | b
    · -- prerelease only
      have e1 : splitOnce '+'
          (Ms ++ '.' :: ms ++ '.' :: ps ++ optSeg '-' (some s) ++
            optSeg '+' (none : Option PyStr)) = none := by
        simp only [optSeg, List.append_nil]
        simp only [optSeg] at hp1P
        exact splitOnce_of_not_mem hp1P
      have e2 : splitOnce '-'
          (Ms ++ '.' :: ms ++ '.' :: ps ++ optSeg '-' (some s)) =
          some (Ms ++ '.' :: ms ++ '.' :: ps, s) := by
        simp only [optSeg]
        exact splitOnce_append_cons _ hcoreD
      have hparse : Version.parse
          (Ms ++ '.' :: ms ++ '.' :: ps ++ optSeg '-' (some s) ++
            optSeg '+' (none : Option PyStr)) =
          some ⟨Ms ++ '.' :: ms ++ '.' :: ps ++ optSeg '-' (some s) ++
            optSeg '+' (none : Option PyStr),
            natVal Ms, natVal ms, natVal ps, s, []⟩ := by
        simp only [Version.parse, e1]
        simp only [optSeg, List.append_nil] at e2 ⊢
        simp only [e2, hsplitCore, hsplitRest, hpM, hpm, hpp]
      exact ⟨_, hparse, rfl, rfl, rfl,
        by simp [Version.prerelease, hs.1], by simp [Version.build], rfl⟩
    · -- prerelease and build
      have hb := hbld b rfl
      have e1 : splitOnce '+'
          (Ms ++ '.' :: ms ++ '.' :: ps ++ optSeg '-' (some s) ++
            optSeg '+' (some b)) =
          some (Ms ++ '.' :: ms ++ '.' :: ps ++ optSeg '-' (some s), b) := by
        simp only [optSeg]
        simp only [optSeg] at hp1P
        exact splitOnce_append_cons _ hp1P
      have e2 : splitOnce '-'
          (Ms ++ '.' :: ms ++ '.' :: ps ++ optSeg '-' (some s)) =
          some (Ms ++ '.' :: ms ++ '.' :: ps, s) := by
        simp only [optSeg]
        exact splitOnce_append_cons _ hcoreD
      have hparse : Version.parse
          (Ms ++ '.' :: ms ++ '.' :: ps ++ optSeg '-' (some s) ++
            optSeg '+' (some b)) =
          some ⟨Ms ++ '.' :: ms ++ '.' :: ps ++ optSeg '-' (some s) ++
            optSeg '+' (some b),
            natVal Ms, natVal ms, natVal ps, s, b⟩ := by
        simp only [Version.parse, e1, e2, hsplitCore, hsplitRest,
          hpM, hpm, hpp]
      exact ⟨_, hparse, rfl, rfl, rfl,
        by simp [Version.prerelease, hs.1], by simp [Version.build, hb], rfl⟩

/-- C8 witness: the version string `1.2.3-rc+b5` decomposes into
major 1, minor 2, patch 3, prerelease `rc`, build `b5`, and `str`
round-trips. -/
theorem version_parse_decomposition_witness :
    ∃ ver : Version,
      Version.parse
        (['1'] ++ '.' :: ['2'] ++ '.' :: ['3'] ++ optSeg '-' (some ['r', 'c']) ++
          optSeg '+' (some ['b', '5'])) = some ver ∧
      ver.major = natVal ['1'] ∧ ver.minor = natVal ['2'] ∧
      ver.patch = natVal ['3'] ∧
      ver.prerelease = some ['r', 'c'] ∧ ver.build = some ['b', '5'] ∧
      ver.str =
        ['1'] ++ '.' :: ['2'] ++ '.' :: ['3'] ++ optSeg '-' (some ['r', 'c']) ++
          optSeg '+' (some ['b', '5']) :=
  version_parse_decomposition ['1'] ['2'] ['3'] (some ['r', 'c'])
    (some ['b', '5']) (by decide) (by decide) (by decide) (by decide)
    (by decide) (by decide)
    (fun s hs => by cases hs; exact ⟨by decide, by decide⟩)
    (fun b hb => by cases hb; decide)

end Cybsi
